import Mathlib

/-!
# Verification of the StyleHub store backend (routing / validation / fallback layer)

Shallow embedding of the two iterations of the Express backend:

* namespace `PartZero` embeds `src/unnamed/part_000` — the "fallback" iteration:
  the product list and single-product endpoints fall back to hard-coded sample
  data, the seed endpoint checks store connectivity up front, and the contact
  and order endpoints do not persist anything.
* namespace `ServerJs` embeds `src/server.js` — the persisting iteration:
  mongoose schemas with required-field validation, an order `pre('save')` hook
  generating `orderNumber`, and handlers that write to the store.

Conventions of the embedding:

* JS numbers appearing as prices/amounts are embedded as `ℚ`.
* A JS value that may be `undefined` is an `Option`; JS truthiness tests
  (`!x`) on strings are `falsyStr` (false for a missing or empty string).
* The document store is external: a read that the driver may fail is passed
  to the handler as an `Except String` value (the driver's answer), and the
  store contents that a handler may rewrite are threaded as explicit state.
* `Date.now()` and `countDocuments()` are passed as explicit `Nat` arguments.
* Template-literal interpolation of a number renders its decimal digits,
  embedded as `Nat.repr`.
-/

namespace StoreBackend

/-- JS truthiness test `!x` on an optional string: true when the value is
absent (`undefined`) or the empty string. -/
def falsyStr : Option String → Bool
  | none => true
  | some s => s == ""

/-- Plain response envelope carrying only status and success flag. -/
structure Resp where
  status : Nat
  success : Bool
  deriving DecidableEq

/-! ## Decimal rendering (`Nat.repr`) facts

`src/server.js` builds order numbers with a template literal
`` `SH${Date.now()}${count + 1}` ``; distinctness of generated order numbers
reduces to facts about the decimal rendering `Nat.repr`.  We relate
`Nat.toDigits` to Mathlib's `Nat.digits` to obtain a length formula and
injectivity. -/

/-- Decimal value of a digit character; inverse of `Nat.digitChar` below 10. -/
def charVal (c : Char) : Nat :=
  if c = '0' then 0 else if c = '1' then 1 else if c = '2' then 2 else
  if c = '3' then 3 else if c = '4' then 4 else if c = '5' then 5 else
  if c = '6' then 6 else if c = '7' then 7 else if c = '8' then 8 else
  if c = '9' then 9 else 10

lemma charVal_digitChar : ∀ d < 10, charVal (Nat.digitChar d) = d := by decide

lemma digitChar_eq_zero_char : ∀ d < 10, Nat.digitChar d = '0' → d = 0 := by decide

lemma toDigitsCore_eq_digits (f : Nat) :
    ∀ (n : Nat) (ds : List Char), n ≠ 0 → n < 10 ^ f →
      Nat.toDigitsCore 10 f n ds
        = ((Nat.digits 10 n).map Nat.digitChar).reverse ++ ds := by
  induction f with
  | zero =>
    intro n ds h0 hlt
    simp only [pow_zero, Nat.lt_one_iff] at hlt
    exact absurd hlt h0
  | succ f ih =>
    intro n ds h0 hlt
    have hn : 0 < n := Nat.pos_of_ne_zero h0
    rw [Nat.toDigitsCore]
    by_cases hq : n / 10 = 0
    · have hlt10 : n < 10 := (Nat.div_eq_zero_iff (by norm_num)).mp hq
      rw [if_pos hq, Nat.digits_def' (by norm_num : 1 < 10) hn, hq,
        Nat.digits_zero, Nat.mod_eq_of_lt hlt10]
      simp
    · have hq' : n / 10 < 10 ^ f := by
        rw [Nat.div_lt_iff_lt_mul (by norm_num : 0 < 10)]
        calc n < 10 ^ (f + 1) := hlt
          _ = 10 ^ f * 10 := by ring
      rw [if_neg hq, ih (n / 10) _ hq hq',
        Nat.digits_def' (by norm_num : 1 < 10) hn]
      simp

lemma toDigits_eq_digits {n : Nat} (h : n ≠ 0) :
    Nat.toDigits 10 n = ((Nat.digits 10 n).map Nat.digitChar).reverse := by
  have h1 : n < 10 ^ n := Nat.lt_pow_self (by norm_num) n
  have h2 : (10:Nat) ^ n ≤ 10 ^ (n + 1) :=
    Nat.pow_le_pow_right (by norm_num) (Nat.le_succ n)
  rw [Nat.toDigits, toDigitsCore_eq_digits (n + 1) n [] h (lt_of_lt_of_le h1 h2),
    List.append_nil]

lemma repr_data (n : Nat) : (Nat.repr n).data = Nat.toDigits 10 n := rfl

lemma toDigits_zero : Nat.toDigits 10 0 = ['0'] := rfl

lemma repr_length_eq_log (n : Nat) : (Nat.repr n).length = Nat.log 10 n + 1 := by
  by_cases h : n = 0
  · subst h; rw [Nat.log_zero_right]; rfl
  · show (Nat.repr n).data.length = _
    rw [repr_data, toDigits_eq_digits h, List.length_reverse, List.length_map,
      Nat.digits_len 10 n (by norm_num) h]

lemma repr_length_mono {m n : Nat} (h : m ≤ n) :
    (Nat.repr m).length ≤ (Nat.repr n).length := by
  rw [repr_length_eq_log, repr_length_eq_log]
  exact Nat.succ_le_succ (Nat.log_mono_right h)

lemma map_charVal_digits (m : Nat) :
    ((Nat.digits 10 m).map Nat.digitChar).map charVal = Nat.digits 10 m := by
  rw [List.map_map]
  have h : ∀ d ∈ Nat.digits 10 m, (charVal ∘ Nat.digitChar) d = id d := fun d hd =>
    charVal_digitChar d (Nat.digits_lt_base (by norm_num) hd)
  rw [List.map_congr_left h, List.map_id]

lemma digits_map_digitChar_inj {m n : Nat}
    (h : (Nat.digits 10 m).map Nat.digitChar = (Nat.digits 10 n).map Nat.digitChar) :
    m = n := by
  have hdig : Nat.digits 10 m = Nat.digits 10 n := by
    rw [← map_charVal_digits m, ← map_charVal_digits n, h]
  calc m = Nat.ofDigits 10 (Nat.digits 10 m) := (Nat.ofDigits_digits 10 m).symm
    _ = Nat.ofDigits 10 (Nat.digits 10 n) := by rw [hdig]
    _ = n := Nat.ofDigits_digits 10 n

lemma toDigits_zero_ne {n : Nat} (hn : n ≠ 0)
    (h : Nat.toDigits 10 0 = Nat.toDigits 10 n) : False := by
  rw [toDigits_zero, toDigits_eq_digits hn] at h
  have hlen : 1 = (Nat.digits 10 n).length := by
    have := congrArg List.length h
    simpa using this
  obtain ⟨d, hd⟩ := List.length_eq_one.mp hlen.symm
  rw [hd] at h
  have hchar : Nat.digitChar d = '0' := by
    have := h.symm
    simpa using this
  have hd10 : d < 10 := Nat.digits_lt_base (by norm_num) (hd ▸ List.mem_singleton_self d)
  have hd0 : d = 0 := digitChar_eq_zero_char d hd10 hchar
  have : n = 0 := by
    have := Nat.ofDigits_digits 10 n
    rw [hd, hd0] at this
    simpa using this.symm
  exact hn this

lemma repr_inj {m n : Nat} (h : Nat.repr m = Nat.repr n) : m = n := by
  have hdata : Nat.toDigits 10 m = Nat.toDigits 10 n := by
    rw [← repr_data, ← repr_data, h]
  by_cases hm : m = 0 <;> by_cases hn : n = 0
  · rw [hm, hn]
  · exact absurd (hm ▸ hdata) (fun hh => toDigits_zero_ne hn hh)
  · exact absurd (hn ▸ hdata).symm (fun hh => toDigits_zero_ne hm hh)
  · apply digits_map_digitChar_inj
    have heq := hdata
    rw [toDigits_eq_digits hm, toDigits_eq_digits hn] at heq
    exact List.reverse_injective heq

lemma repr_concat_ne {t₁ t₂ m n : Nat} (ht : t₁ ≤ t₂) (hmn : m < n) :
    "SH" ++ Nat.repr t₁ ++ Nat.repr m ≠ "SH" ++ Nat.repr t₂ ++ Nat.repr n := by
  intro heq
  have hdata : ("SH".data ++ (Nat.repr t₁).data) ++ (Nat.repr m).data
      = ("SH".data ++ (Nat.repr t₂).data) ++ (Nat.repr n).data := by
    have h2 := congrArg String.data heq
    rw [String.data_append, String.data_append, String.data_append,
      String.data_append] at h2
    exact h2
  have hlen := congrArg List.length hdata
  simp only [List.length_append] at hlen
  have hm1 : (Nat.repr t₁).length ≤ (Nat.repr t₂).length := repr_length_mono ht
  have hm2 : (Nat.repr m).length ≤ (Nat.repr n).length :=
    repr_length_mono (Nat.le_of_lt hmn)
  have e1 : (Nat.repr t₁).data.length = (Nat.repr t₁).length := rfl
  have e2 : (Nat.repr t₂).data.length = (Nat.repr t₂).length := rfl
  have e3 : (Nat.repr m).data.length = (Nat.repr m).length := rfl
  have e4 : (Nat.repr n).data.length = (Nat.repr n).length := rfl
  have hsuf : (Nat.repr m).data.length = (Nat.repr n).data.length := by omega
  obtain ⟨-, hts⟩ := List.append_inj' hdata hsuf
  have : m = n := repr_inj (String.ext hts)
  omega

/-! ## `src/server.js` — the persisting iteration -/

namespace ServerJs

/-- Embedded customer record of `orderSchema.customerInfo`; every field is
declared `required: true` in the schema, and a field the request body omits
is `none`. -/
structure CustomerInfo where
  name : Option String
  email : Option String
  address : Option String
  phone : Option String
  city : Option String
  country : Option String
  zipCode : Option String
  deriving DecidableEq

/-- Embedded line item of `orderSchema.products`: `productId`, `name`,
`quantity` (with `min: 1`) and `price` are required; `image`, `size` and
`color` are optional. -/
structure OrderItem where
  productId : Option String
  name : Option String
  quantity : Option ℚ
  price : Option ℚ
  image : Option String
  size : Option String
  color : Option String
  deriving DecidableEq

/-- Embedded order document of `orderSchema`.  `shippingCost`/`taxAmount`
default to 0 and `status`/`paymentStatus` to their default enum values when
the body omits them, so they are plain values here; `totalAmount` is
`required: true` and `orderNumber` has no `required` flag. -/
structure Order where
  customerInfo : CustomerInfo
  products : List OrderItem
  totalAmount : Option ℚ
  shippingCost : ℚ
  taxAmount : ℚ
  status : String
  paymentStatus : String
  orderNumber : Option String
  deriving DecidableEq

/-- Mongoose `required: true` on a `String` path: fails on a missing value
and on the empty string. -/
def requiredString (v : Option String) : Bool :=
  match v with
  | some s => !(s == "")
  | none => false

/-- Schema validation of one line item of `orderSchema.products`. -/
def validItem (it : OrderItem) : Bool :=
  it.productId.isSome && requiredString it.name &&
    (match it.quantity with
     | some q => decide (1 ≤ q)
     | none => false) &&
    it.price.isSome

/-- Mongoose validation run at `save()` for `orderSchema`: all required
paths present and the two enum paths within their declared sets. -/
def validateOrder (o : Order) : Bool :=
  requiredString o.customerInfo.name && requiredString o.customerInfo.email &&
    requiredString o.customerInfo.address && requiredString o.customerInfo.phone &&
    requiredString o.customerInfo.city && requiredString o.customerInfo.country &&
    requiredString o.customerInfo.zipCode &&
    o.products.all validItem &&
    o.totalAmount.isSome &&
    ["pending", "confirmed", "shipped", "delivered", "cancelled"].contains o.status &&
    ["pending", "paid", "failed", "refunded"].contains o.paymentStatus

/-- The string built by `` `SH${Date.now()}${count + 1}` `` in the
`orderSchema.pre('save')` hook: prefix `SH`, then the decimal rendering of
the millisecond timestamp, then the decimal rendering of `count + 1`. -/
def genOrderNumber (now count : Nat) : String :=
  "SH" ++ Nat.repr now ++ Nat.repr (count + 1)

/-- The `orderSchema.pre('save')` hook: if `this.orderNumber` is falsy,
set it from the clock (`now`) and the current order document count. -/
def preSave (now count : Nat) (o : Order) : Order :=
  if falsyStr o.orderNumber then
    { o with orderNumber := some (genOrderNumber now count) }
  else o

/-- Response envelope of `POST /api/orders`. -/
structure OrderResp where
  status : Nat
  success : Bool
  order : Option Order
  deriving DecidableEq

/-- Handler of `POST /api/orders` in `src/server.js`: builds the document
from the body, runs the save pipeline (`pre('save')` hook plus schema
validation) and appends the document to the order collection; a validation
failure is caught and answered with a 400 envelope, leaving the collection
untouched.  `now` is the value `Date.now()` reads during the save and
`orders` the current collection (so `orders.length` is what
`Order.countDocuments()` returns). -/
def createOrder (now : Nat) (orders : List Order) (body : Order) :
    OrderResp × List Order :=
  let doc := preSave now orders.length body
  if validateOrder doc then (⟨201, true, some doc⟩, orders ++ [doc])
  else (⟨400, false, none⟩, orders)

/-- Generated order numbers of two back-to-back saves are distinct: the
second save sees a clock at least as late and a document count one larger. -/
lemma genOrderNumber_ne {t₁ t₂ c : Nat} (ht : t₁ ≤ t₂) :
    genOrderNumber t₁ c ≠ genOrderNumber t₂ (c + 1) :=
  repr_concat_ne ht (by omega)

/-- `preSave` never changes `totalAmount`. -/
lemma preSave_totalAmount (now count : Nat) (o : Order) :
    (preSave now count o).totalAmount = o.totalAmount := by
  unfold preSave
  split <;> rfl

/-- A generated order number is not the empty string, hence not falsy. -/
lemma genOrderNumber_not_falsy (now count : Nat) :
    falsyStr (some (genOrderNumber now count)) = false := by
  have hne : genOrderNumber now count ≠ "" := by
    intro h
    have := congrArg String.data h
    rw [genOrderNumber, String.data_append, String.data_append] at this
    simp at this
  simpa [falsyStr] using hne

/-- Embedded product document, restricted to the fields the
`src/server.js` product routes consult (query filters and sort keys). -/
structure Product where
  name : String
  price : ℚ
  category : String
  gender : String
  rating : ℚ
  createdAt : Nat
  deriving DecidableEq

/-- `new RegExp(pat, 'i').test(s)` for the plain-text patterns the handler
builds: case-insensitive substring containment. -/
def regexTestCI (pat s : String) : Bool :=
  decide (pat.toLower.data <:+: s.toLower.data)

/-- The Mongo query object built by `GET /api/products`: category and name
are case-insensitive regex matches, gender an exact match; an absent query
parameter adds no condition. -/
def matchesQuery (category gender search : Option String) (p : Product) : Bool :=
  (match category with
   | some c => regexTestCI c p.category
   | none => true) &&
    (match gender with
     | some g => p.gender == g
     | none => true) &&
    (match search with
     | some s => regexTestCI s p.name
     | none => true)

/-- The `.sort(sortOption)` step of `GET /api/products`: `price_asc` and
`price_desc` sort by price, `rating` by rating descending, anything else
(including `newest` and the default) by `createdAt` descending. -/
def sortProducts (sort : Option String) (ps : List Product) : List Product :=
  if sort = some "price_asc" then ps.mergeSort (fun a b => decide (a.price ≤ b.price))
  else if sort = some "price_desc" then ps.mergeSort (fun a b => decide (b.price ≤ a.price))
  else if sort = some "rating" then ps.mergeSort (fun a b => decide (b.rating ≤ a.rating))
  else ps.mergeSort (fun a b => decide (b.createdAt ≤ a.createdAt))

/-- The `.limit(productsLimit)` step: `productsLimit` is `parseInt(limit)`
when a limit parameter is present and `0` otherwise, and Mongo treats a
limit of `0` as no limit. -/
def applyLimit (lim : Option Nat) (ps : List Product) : List Product :=
  match lim with
  | some k => if k = 0 then ps else ps.take k
  | none => ps

/-- `applyLimit` only drops a suffix, so it preserves pairwise order. -/
lemma applyLimit_pairwise {R : Product → Product → Prop} {lim : Option Nat}
    {ps : List Product} (h : ps.Pairwise R) : (applyLimit lim ps).Pairwise R := by
  cases lim with
  | none => exact h
  | some k =>
    by_cases hk : k = 0
    · simpa [applyLimit, hk] using h
    · simpa [applyLimit, hk] using List.Pairwise.sublist (List.take_sublist k ps) h

/-- `applyLimit (some 2)` returns at most two items. -/
lemma applyLimit_two_length (ps : List Product) :
    (applyLimit (some 2) ps).length ≤ 2 := by
  have htake : applyLimit (some 2) ps = ps.take 2 := rfl
  rw [htake]
  exact List.length_take_le 2 ps

/-- Response envelope of `GET /api/products`. -/
structure ListResp where
  status : Nat
  success : Bool
  count : Nat
  products : List Product
  deriving DecidableEq

/-- Handler of `GET /api/products` in `src/server.js`: filter the product
collection by the query object, sort, limit, and answer with
`{success: true, count, products}`. -/
def listProducts (category gender search sort : Option String) (lim : Option Nat)
    (db : List Product) : ListResp :=
  let ps := applyLimit lim (sortProducts sort (db.filter (matchesQuery category gender search)))
  ⟨200, true, ps.length, ps⟩

/-- Contact form body of `POST /api/contact` in `src/server.js`. -/
structure ContactBody where
  firstName : Option String
  lastName : Option String
  email : Option String
  phone : Option String
  subject : Option String
  message : Option String
  deriving DecidableEq

/-- Handler of `POST /api/contact` in `src/server.js`: reject a body with a
falsy `firstName`, `lastName`, `email` or `message` with a 400 envelope;
otherwise `await contact.save()` — a save that succeeds is answered with a
200 success envelope, a save that throws is caught and answered with a 500
error envelope.  `saveResult` is the store adapter's outcome of the save. -/
def contactHandler (b : ContactBody) (saveResult : Except String Unit) : Resp :=
  if falsyStr b.firstName || falsyStr b.lastName || falsyStr b.email
      || falsyStr b.message then ⟨400, false⟩
  else
    match saveResult with
    | .ok _ => ⟨200, true⟩
    | .error _ => ⟨500, false⟩

end ServerJs

/-! ## `src/unnamed/part_000` — the fallback iteration -/

namespace PartZero

/-- Embedded product record as it appears in the hard-coded sample literals
of `src/unnamed/part_000` (`id` embeds the `_id` key; keys a literal omits
are `none`). -/
structure Product where
  id : Option String
  name : String
  description : String
  price : ℚ
  originalPrice : Option ℚ
  image : String
  category : String
  gender : String
  rating : ℚ
  reviews : Nat
  inStock : Bool
  isNew : Option Bool
  isHot : Option Bool
  sizes : List String
  colors : List String
  features : List String
  deriving DecidableEq

/-- The six-product sample catalog literal inside the `GET /api/products`
handler of `src/unnamed/part_000`. -/
def listSampleProducts : List Product := [
  { id := some "1",
    name := "Men\x27s Premium Blazer",
    description := "Elevate your professional wardrobe with this premium blazer featuring superior tailoring and premium fabric.",
    price := 89.99, originalPrice := some 119.99,
    image := "https://images.unsplash.com/photo-1594938298603-c8148c4dae35?w=400&h=400&fit=crop",
    category := "Men\x27s Fashion", gender := "men",
    rating := 4.8, reviews := 124, inStock := true,
    isNew := some true, isHot := none,
    sizes := ["S", "M", "L", "XL", "XXL"],
    colors := ["Navy", "Black", "Charcoal"],
    features := ["Premium Wool Blend", "Perfect Tailoring", "Wrinkle Resistant"] },
  { id := some "2",
    name := "Women\x27s Summer Dress",
    description := "Embrace summer elegance with this flowing dress featuring floral patterns and comfortable fabric.",
    price := 59.99, originalPrice := some 79.99,
    image := "https://images.unsplash.com/photo-1595777457583-95e059d581b8?w=400&h=400&fit=crop",
    category := "Women\x27s Fashion", gender := "women",
    rating := 4.6, reviews := 89, inStock := true,
    isNew := none, isHot := some true,
    sizes := ["XS", "S", "M", "L"],
    colors := ["Floral Red", "Floral Blue", "Solid White"],
    features := ["Breathable Fabric", "Floral Pattern", "Comfort Fit"] },
  { id := some "3",
    name := "Men\x27s Running Shoes",
    description := "High-performance running shoes with advanced cushioning and breathable mesh upper.",
    price := 79.99, originalPrice := some 99.99,
    image := "https://images.unsplash.com/photo-1542291026-7eec264c27ff?w=400&h=400&fit=crop",
    category := "Men\x27s Footwear", gender := "men",
    rating := 4.5, reviews := 156, inStock := true,
    isNew := none, isHot := none,
    sizes := ["8", "9", "10", "11", "12"],
    colors := ["Black", "Blue", "White"],
    features := ["Advanced Cushioning", "Breathable Mesh", "Durable Sole"] },
  { id := some "4",
    name := "Women\x27s Designer Handbag",
    description := "Elegant leather handbag with multiple compartments and adjustable strap.",
    price := 69.99, originalPrice := some 89.99,
    image := "https://images.unsplash.com/photo-1584917865442-de89df76afd3?w=400&h=400&fit=crop",
    category := "Women\x27s Accessories", gender := "women",
    rating := 4.9, reviews := 67, inStock := true,
    isNew := some true, isHot := none,
    sizes := ["One Size"],
    colors := ["Black", "Brown", "Tan"],
    features := ["Genuine Leather", "Multiple Compartments", "Adjustable Strap"] },
  { id := some "5",
    name := "Men\x27s Casual T-Shirt",
    description := "Comfortable and stylish casual t-shirt made from 100% cotton.",
    price := 24.99, originalPrice := some 34.99,
    image := "https://images.unsplash.com/photo-1521572163474-6864f9cf17ab?w=400&h=400&fit=crop",
    category := "Men\x27s Casual", gender := "men",
    rating := 4.3, reviews := 203, inStock := true,
    isNew := none, isHot := none,
    sizes := ["S", "M", "L", "XL"],
    colors := ["White", "Black", "Gray", "Navy"],
    features := ["100% Cotton", "Premium Fit", "Machine Washable"] },
  { id := some "6",
    name := "Women\x27s Elegant Skirt",
    description := "Flowy and elegant skirt perfect for both casual and formal occasions.",
    price := 45.99, originalPrice := some 59.99,
    image := "https://images.unsplash.com/photo-1594633312681-425c7b97ccd1?w=400&h=400&fit=crop",
    category := "Women\x27s Fashion", gender := "women",
    rating := 4.7, reviews := 94, inStock := true,
    isNew := none, isHot := some true,
    sizes := ["XS", "S", "M", "L"],
    colors := ["Black", "Navy", "Burgundy"],
    features := ["Flowy Design", "Comfortable Waistband", "Easy Care"] }]

/-- The two-product sample literal inside the `GET /api/products/:id`
handler of `src/unnamed/part_000` (only ids "1" and "2"). -/
def singleSampleProducts : List Product := [
  { id := some "1",
    name := "Men\x27s Premium Blazer",
    description := "Elevate your professional wardrobe with this premium blazer featuring superior tailoring and premium fabric.",
    price := 89.99, originalPrice := some 119.99,
    image := "https://images.unsplash.com/photo-1594938298603-c8148c4dae35?w=400&h=400&fit=crop",
    category := "Men\x27s Fashion", gender := "men",
    rating := 4.8, reviews := 124, inStock := true,
    isNew := some true, isHot := none,
    sizes := ["S", "M", "L", "XL", "XXL"],
    colors := ["Navy", "Black", "Charcoal"],
    features := ["Premium Wool Blend", "Perfect Tailoring", "Wrinkle Resistant"] },
  { id := some "2",
    name := "Women\x27s Summer Dress",
    description := "Embrace summer elegance with this flowing dress featuring floral patterns and comfortable fabric.",
    price := 59.99, originalPrice := some 79.99,
    image := "https://images.unsplash.com/photo-1595777457583-95e059d581b8?w=400&h=400&fit=crop",
    category := "Women\x27s Fashion", gender := "women",
    rating := 4.6, reviews := 89, inStock := true,
    isNew := none, isHot := some true,
    sizes := ["XS", "S", "M", "L"],
    colors := ["Floral Red", "Floral Blue", "Solid White"],
    features := ["Breathable Fabric", "Floral Pattern", "Comfort Fit"] }]

/-- The four-product seed payload literal inside the `POST /api/seed-products`
handler of `src/unnamed/part_000` (no `_id`: the store assigns ids). -/
def seedSampleProducts : List Product := [
  { id := none,
    name := "Men\x27s Premium Blazer",
    description := "Elevate your professional wardrobe with this premium blazer featuring superior tailoring and premium fabric.",
    price := 89.99, originalPrice := some 119.99,
    image := "https://images.unsplash.com/photo-1594938298603-c8148c4dae35?w=400&h=400&fit=crop",
    category := "Men\x27s Fashion", gender := "men",
    rating := 4.8, reviews := 124, inStock := true,
    isNew := some true, isHot := none,
    sizes := ["S", "M", "L", "XL", "XXL"],
    colors := ["Navy", "Black", "Charcoal"],
    features := ["Premium Wool Blend", "Perfect Tailoring", "Wrinkle Resistant"] },
  { id := none,
    name := "Women\x27s Summer Dress",
    description := "Embrace summer elegance with this flowing dress featuring floral patterns and comfortable fabric.",
    price := 59.99, originalPrice := some 79.99,
    image := "https://images.unsplash.com/photo-1595777457583-95e059d581b8?w=400&h=400&fit=crop",
    category := "Women\x27s Fashion", gender := "women",
    rating := 4.6, reviews := 89, inStock := true,
    isNew := none, isHot := some true,
    sizes := ["XS", "S", "M", "L"],
    colors := ["Floral Red", "Floral Blue", "Solid White"],
    features := ["Breathable Fabric", "Floral Pattern", "Comfort Fit"] },
  { id := none,
    name := "Men\x27s Running Shoes",
    description := "High-performance running shoes with advanced cushioning and breathable mesh upper.",
    price := 79.99, originalPrice := some 99.99,
    image := "https://images.unsplash.com/photo-1542291026-7eec264c27ff?w=400&h=400&fit=crop",
    category := "Men\x27s Footwear", gender := "men",
    rating := 4.5, reviews := 156, inStock := true,
    isNew := none, isHot := none,
    sizes := ["8", "9", "10", "11", "12"],
    colors := ["Black", "Blue", "White"],
    features := ["Advanced Cushioning", "Breathable Mesh", "Durable Sole"] },
  { id := none,
    name := "Women\x27s Designer Handbag",
    description := "Elegant leather handbag with multiple compartments and adjustable strap.",
    price := 69.99, originalPrice := some 89.99,
    image := "https://images.unsplash.com/photo-1584917865442-de89df76afd3?w=400&h=400&fit=crop",
    category := "Women\x27s Accessories", gender := "women",
    rating := 4.9, reviews := 67, inStock := true,
    isNew := some true, isHot := none,
    sizes := ["One Size"],
    colors := ["Black", "Brown", "Tan"],
    features := ["Genuine Leather", "Multiple Compartments", "Adjustable Strap"] }]

/-- Response envelope of `GET /api/products`. -/
structure ListResp where
  status : Nat
  success : Bool
  count : Nat
  products : List Product
  deriving DecidableEq

/-- The sample-data response block shared by the disconnected and the
empty-result paths of `GET /api/products`. -/
def sampleListResp : ListResp :=
  ⟨200, true, listSampleProducts.length, listSampleProducts⟩

/-- Handler of `GET /api/products` in `src/unnamed/part_000`: when the store
is connected, ask it for all products (`dbFind` is the adapter's answer) and
return them when there are more than zero; otherwise — disconnected store or
zero results — answer with the fixed sample catalog; a throwing store read
is caught and answered with a 500 envelope. -/
def getProducts (connected : Bool) (dbFind : Except String (List Product)) : ListResp :=
  if connected then
    match dbFind with
    | .ok ps => if 0 < ps.length then ⟨200, true, ps.length, ps⟩ else sampleListResp
    | .error _ => ⟨500, false, 0, []⟩
  else sampleListResp

/-- Response envelope of `GET /api/products/:id`. -/
structure SingleResp where
  status : Nat
  success : Bool
  product : Option Product
  deriving DecidableEq

/-- The fallback scan of `GET /api/products/:id`: look the id up in the
two-product sample literal, else 404. -/
def singleSampleLookup (productId : String) : SingleResp :=
  match singleSampleProducts.find? (fun p => p.id == some productId) with
  | some p => ⟨200, true, some p⟩
  | none => ⟨404, false, none⟩

/-- Handler of `GET /api/products/:id` in `src/unnamed/part_000`: when the
store is connected, `findById` first (`dbResult` is the adapter's answer —
a hit, a miss, or a thrown lookup error); on a miss, or with no store
connected, scan the sample literal; a thrown store lookup is caught and
answered with a 500 envelope. -/
def getProductById (connected : Bool) (dbResult : Except String (Option Product))
    (productId : String) : SingleResp :=
  if connected then
    match dbResult with
    | .ok (some p) => ⟨200, true, some p⟩
    | .ok none => singleSampleLookup productId
    | .error _ => ⟨500, false, none⟩
  else singleSampleLookup productId

/-- Response envelope of `POST /api/seed-products`. -/
structure SeedResp where
  status : Nat
  success : Bool
  count : Nat
  deriving DecidableEq

/-- Handler of `POST /api/seed-products` in `src/unnamed/part_000`: answer
503 when no store connection exists (explicit precondition check before any
write); otherwise `deleteMany` then `insertMany` of the seed payload, the
store assigning fresh ids (`freshIds`).  The store contents are the only
mutable state and are threaded explicitly; the sample catalogs are
immutable constants. -/
def seedProducts (connected : Bool) (freshIds : List String) (db : List Product) :
    SeedResp × List Product :=
  if !connected then (⟨503, false, 0⟩, db)
  else
    let inserted := (seedSampleProducts.zip freshIds).map
      (fun pi => { pi.1 with id := some pi.2 })
    (⟨200, true, inserted.length⟩, inserted)

/-- Contact form body of `POST /api/contact` in `src/unnamed/part_000`. -/
structure ContactBody where
  name : Option String
  email : Option String
  message : Option String
  subject : Option String
  deriving DecidableEq

/-- Handler of `POST /api/contact` in `src/unnamed/part_000`: reject a body
with a falsy `name`, `email` or `message` with a 400 envelope; otherwise
log the submission (no persistence) and answer with a 200 success
envelope. -/
def contactHandler (b : ContactBody) : Resp :=
  if falsyStr b.name || falsyStr b.email || falsyStr b.message then ⟨400, false⟩
  else ⟨200, true⟩

end PartZero

/-! ## Test fixtures used by witness theorems -/

/-- A concrete product used as a store answer in witnesses. -/
def wProduct : PartZero.Product :=
  { id := some "42", name := "Test Jacket", description := "A jacket.",
    price := 10, originalPrice := none, image := "https://example.com/j.png",
    category := "Outerwear", gender := "unisex", rating := 0, reviews := 0,
    inStock := true, isNew := none, isHot := none,
    sizes := [], colors := [], features := [] }

/-- A concrete fully valid order body without an order number. -/
def wOrderA : ServerJs.Order :=
  { customerInfo :=
      { name := some "Jane", email := some "jane@example.com",
        address := some "1 Main St", phone := some "555-0100",
        city := some "Springfield", country := some "US", zipCode := some "12345" },
    products := [{ productId := some "p1", name := some "Blazer",
                   quantity := some 1, price := some 89,
                   image := none, size := none, color := none }],
    totalAmount := some 89, shippingCost := 0, taxAmount := 0,
    status := "pending", paymentStatus := "pending", orderNumber := none }

/-- A second valid order body, differing from `wOrderA` in the customer name. -/
def wOrderB : ServerJs.Order :=
  { wOrderA with customerInfo := { wOrderA.customerInfo with name := some "Bob" } }

/-- `wOrderA` with the total amount omitted. -/
def wOrderNoTotal : ServerJs.Order := { wOrderA with totalAmount := none }

/-- `wOrderA` with a client-supplied order number. -/
def wOrderCustom : ServerJs.Order := { wOrderA with orderNumber := some "CUSTOM1" }

/-! ## Claim theorems -/

/-- C1: for every `GET /api/products` request while no store is connected
(or the store returns zero results), the `src/unnamed/part_000` handler
responds with `success: true`, a non-zero count, and the fixed in-memory
sample product list — never an error envelope and never an empty list. -/
theorem products_fallback_on_disconnected_or_empty
    (connected : Bool) (dbFind : Except String (List PartZero.Product))
    (h : connected = false ∨ dbFind = Except.ok []) :
    (PartZero.getProducts connected dbFind).success = true
    ∧ (PartZero.getProducts connected dbFind).status = 200
    ∧ (PartZero.getProducts connected dbFind).count ≠ 0
    ∧ (PartZero.getProducts connected dbFind).products = PartZero.listSampleProducts := by
  have hc : PartZero.sampleListResp.count ≠ 0 := by decide
  rcases h with h | h
  · subst h
    exact ⟨rfl, rfl, hc, rfl⟩
  · subst h
    cases connected
    · exact ⟨rfl, rfl, hc, rfl⟩
    · exact ⟨rfl, rfl, hc, rfl⟩

/-- Witness for C1 at a concrete disconnected store. -/
theorem products_fallback_on_disconnected_or_empty_witness :
    (PartZero.getProducts false (Except.ok [])).success = true
    ∧ (PartZero.getProducts false (Except.ok [])).status = 200
    ∧ (PartZero.getProducts false (Except.ok [])).count ≠ 0
    ∧ (PartZero.getProducts false (Except.ok [])).products = PartZero.listSampleProducts :=
  products_fallback_on_disconnected_or_empty false (Except.ok []) (Or.inl rfl)

/-- C5: `POST /api/seed-products` with no store connection answers 503 from
the explicit precondition check, before any write: the store state is
returned unchanged and the in-memory sample catalogs were never touched. -/
theorem seed_requires_connection (connected : Bool) (freshIds : List String)
    (db : List PartZero.Product) (h : connected = false) :
    PartZero.seedProducts connected freshIds db = (⟨503, false, 0⟩, db) := by
  subst h
  rfl

/-- Witness for C5 at a concrete disconnected store. -/
theorem seed_requires_connection_witness :
    PartZero.seedProducts false ["a"] [wProduct] = (⟨503, false, 0⟩, [wProduct]) :=
  seed_requires_connection false ["a"] [wProduct] rfl

/-- C7: `GET /api/products/:id` consults the store first — a store hit is
returned as-is — and on a store miss scans the static sample list; the
response is 404 exactly when the id is absent from both. -/
theorem product_by_id_store_first_then_sample
    (dbHit : Option PartZero.Product) (productId : String) :
    (∀ p, dbHit = some p →
      PartZero.getProductById true (Except.ok dbHit) productId = ⟨200, true, some p⟩)
    ∧ ((PartZero.getProductById true (Except.ok dbHit) productId).status = 404 ↔
        dbHit = none
        ∧ PartZero.singleSampleProducts.find? (fun p => p.id == some productId) = none) := by
  constructor
  · intro p hp
    subst hp
    rfl
  · cases dbHit with
    | some p => simp [PartZero.getProductById]
    | none =>
      cases hfind : PartZero.singleSampleProducts.find? (fun p => p.id == some productId) with
      | some p => simp [PartZero.getProductById, PartZero.singleSampleLookup, hfind]
      | none => simp [PartZero.getProductById, PartZero.singleSampleLookup, hfind]

/-- Witness for C7: a concrete store hit is returned directly. -/
theorem product_by_id_store_first_then_sample_witness :
    PartZero.getProductById true (Except.ok (some wProduct)) "42"
      = ⟨200, true, some wProduct⟩ :=
  (product_by_id_store_first_then_sample (some wProduct) "42").1 wProduct rfl

/-- C10: in the fallback iteration with no store connected, the list
endpoint serves the six sample products with ids "1"–"6" while the
single-product fallback scan covers only ids "1" and "2"; hence each of the
ids "3"–"6" appears in the list response yet its single-product lookup
answers 404. -/
theorem fallback_catalog_exceeds_single_lookup :
    PartZero.listSampleProducts.map (fun p => p.id)
      = [some "1", some "2", some "3", some "4", some "5", some "6"]
    ∧ PartZero.singleSampleProducts.map (fun p => p.id) = [some "1", some "2"]
    ∧ (["3", "4", "5", "6"].all (fun i =>
        ((PartZero.getProducts false (Except.ok [])).products.map
            (fun p => p.id)).contains (some i)
          && ((PartZero.getProductById false (Except.ok none) i).status == 404))) = true := by
  refine ⟨rfl, rfl, ?_⟩
  decide

/-- C2: a `POST /api/orders` body omitting `totalAmount` fails the schema
validation run at save: the handler answers with a 400 error envelope and
the order collection is returned unchanged — no document is written. -/
theorem order_missing_totalAmount_rejected (now : Nat)
    (orders : List ServerJs.Order) (body : ServerJs.Order)
    (h : body.totalAmount = none) :
    (ServerJs.createOrder now orders body).1.status = 400
    ∧ (ServerJs.createOrder now orders body).1.success = false
    ∧ (ServerJs.createOrder now orders body).2 = orders := by
  have hta : (ServerJs.preSave now orders.length body).totalAmount = none := by
    rw [ServerJs.preSave_totalAmount]
    exact h
  have hv : ServerJs.validateOrder (ServerJs.preSave now orders.length body) = false := by
    simp [ServerJs.validateOrder, hta]
  simp [ServerJs.createOrder, hv]

/-- Witness for C2 at a concrete body without `totalAmount`. -/
theorem order_missing_totalAmount_rejected_witness :
    (ServerJs.createOrder 7 [] wOrderNoTotal).1.status = 400
    ∧ (ServerJs.createOrder 7 [] wOrderNoTotal).1.success = false
    ∧ (ServerJs.createOrder 7 [] wOrderNoTotal).2 = [] :=
  order_missing_totalAmount_rejected 7 [] wOrderNoTotal rfl

/-- C3: the `pre('save')` hook computes `orderNumber` at first persistence
as the concatenation of the fixed prefix `SH`, the decimal clock value and
the decimal of the document count plus one; a document whose `orderNumber`
is already set is left unchanged, and running the hook again — at any later
clock and count — never regenerates or changes the number. -/
theorem orderNumber_generated_at_first_save (now count now' count' : Nat)
    (o : ServerJs.Order) :
    (falsyStr o.orderNumber = true →
      (ServerJs.preSave now count o).orderNumber
        = some ("SH" ++ Nat.repr now ++ Nat.repr (count + 1)))
    ∧ (falsyStr o.orderNumber = false → ServerJs.preSave now count o = o)
    ∧ ServerJs.preSave now' count' (ServerJs.preSave now count o)
        = ServerJs.preSave now count o := by
  refine ⟨?_, ?_, ?_⟩
  · intro h
    simp [ServerJs.preSave, h, ServerJs.genOrderNumber]
  · intro h
    simp [ServerJs.preSave, h]
  · cases hf : falsyStr o.orderNumber with
    | true => simp [ServerJs.preSave, hf, ServerJs.genOrderNumber_not_falsy]
    | false => simp [ServerJs.preSave, hf]

/-- Witness for C3 at concrete documents with and without an order number. -/
theorem orderNumber_generated_at_first_save_witness :
    (ServerJs.preSave 5 2 wOrderA).orderNumber
      = some ("SH" ++ Nat.repr 5 ++ Nat.repr 3)
    ∧ ServerJs.preSave 5 2 wOrderCustom = wOrderCustom :=
  ⟨(orderNumber_generated_at_first_save 5 2 0 0 wOrderA).1 rfl,
   (orderNumber_generated_at_first_save 5 2 0 0 wOrderCustom).2.1 rfl⟩

/-- C4: two orders created back-to-back — the second save sees a clock at
least as late and a document count one larger — are both persisted and
receive distinct `orderNumber` values, even in the same millisecond. -/
theorem back_to_back_orders_distinct_numbers (t₁ t₂ : Nat)
    (orders : List ServerJs.Order) (b₁ b₂ : ServerJs.Order)
    (ht : t₁ ≤ t₂) (_hbodies : b₁ ≠ b₂)
    (h1 : falsyStr b₁.orderNumber = true)
    (h2 : falsyStr b₂.orderNumber = true)
    (hv1 : ServerJs.validateOrder (ServerJs.preSave t₁ orders.length b₁) = true)
    (hv2 : ServerJs.validateOrder (ServerJs.preSave t₂ (orders.length + 1) b₂) = true) :
    (ServerJs.createOrder t₂ (ServerJs.createOrder t₁ orders b₁).2 b₂).2
      = orders ++ [ServerJs.preSave t₁ orders.length b₁,
                   ServerJs.preSave t₂ (orders.length + 1) b₂]
    ∧ (ServerJs.preSave t₁ orders.length b₁).orderNumber
        ≠ (ServerJs.preSave t₂ (orders.length + 1) b₂).orderNumber := by
  have hs1 : (ServerJs.createOrder t₁ orders b₁).2
      = orders ++ [ServerJs.preSave t₁ orders.length b₁] := by
    simp [ServerJs.createOrder, hv1]
  constructor
  · rw [hs1]
    simp [ServerJs.createOrder, hv2]
  · have e1 : (ServerJs.preSave t₁ orders.length b₁).orderNumber
        = some (ServerJs.genOrderNumber t₁ orders.length) := by
      simp [ServerJs.preSave, h1]
    have e2 : (ServerJs.preSave t₂ (orders.length + 1) b₂).orderNumber
        = some (ServerJs.genOrderNumber t₂ (orders.length + 1)) := by
      simp [ServerJs.preSave, h2]
    rw [e1, e2]
    intro hcontra
    exact ServerJs.genOrderNumber_ne ht (Option.some.inj hcontra)

/-- Witness for C4: two concrete valid orders saved in the same
millisecond still get distinct order numbers. -/
theorem back_to_back_orders_distinct_numbers_witness :
    (ServerJs.preSave 11 0 wOrderA).orderNumber
      ≠ (ServerJs.preSave 11 1 wOrderB).orderNumber :=
  (back_to_back_orders_distinct_numbers 11 11 [] wOrderA wOrderB (le_refl 11)
    (fun h => by
      have h2 := congrArg (fun o => o.customerInfo.name) h
      simp [wOrderA, wOrderB] at h2)
    rfl rfl (by rfl) (by rfl)).2

/-- C6: `GET /api/products?sort=price_asc` answers with the items in
non-decreasing price order, `?sort=price_desc` in non-increasing price
order, and `?limit=2` with at most two items — for every store content and
filter combination. -/
theorem products_sort_and_limit (category gender search : Option String)
    (lim : Option Nat) (db : List ServerJs.Product) :
    (ServerJs.listProducts category gender search (some "price_asc") lim db).products.Pairwise
        (fun a b => a.price ≤ b.price)
    ∧ (ServerJs.listProducts category gender search (some "price_desc") lim db).products.Pairwise
        (fun a b => b.price ≤ a.price)
    ∧ ∀ sort : Option String,
        (ServerJs.listProducts category gender search sort (some 2) db).products.length ≤ 2 := by
  refine ⟨?_, ?_, ?_⟩
  · have hs := @List.sorted_mergeSort ServerJs.Product
      (fun a b => decide (a.price ≤ b.price))
      (fun a b c hab hbc =>
        decide_eq_true (le_trans (of_decide_eq_true hab) (of_decide_eq_true hbc)))
      (fun (a b : ServerJs.Product) => by
        simp only [Bool.or_eq_true, decide_eq_true_eq]
        exact le_total a.price b.price)
      (db.filter (ServerJs.matchesQuery category gender search))
    have hs' := hs.imp fun h => of_decide_eq_true h
    simp only [ServerJs.listProducts, ServerJs.sortProducts, if_pos rfl]
    exact ServerJs.applyLimit_pairwise hs'
  · have hs := @List.sorted_mergeSort ServerJs.Product
      (fun a b => decide (b.price ≤ a.price))
      (fun a b c hab hbc =>
        decide_eq_true (le_trans (of_decide_eq_true hbc) (of_decide_eq_true hab)))
      (fun (a b : ServerJs.Product) => by
        simp only [Bool.or_eq_true, decide_eq_true_eq]
        exact le_total b.price a.price)
      (db.filter (ServerJs.matchesQuery category gender search))
    have hs' := hs.imp fun h => of_decide_eq_true h
    simp only [ServerJs.listProducts, ServerJs.sortProducts]
    rw [if_pos trivial]
    exact ServerJs.applyLimit_pairwise hs'
  · intro sort
    simp only [ServerJs.listProducts]
    exact ServerJs.applyLimit_two_length _

/-- C8 counterexample: in `src/server.js` a contact submission that passes
the required-field validation but whose save fails is answered with a 500
error envelope, not a success acknowledgment. -/
theorem contact_ack_counterexample :
    (ServerJs.contactHandler
        ⟨some "Jane", some "Doe", some "jane@example.com", none, none, some "Hello"⟩
        (Except.error "store write failed")).success = false := rfl

/-- C8 amended: for every `POST /api/contact` body passing the
required-field validation, the non-persisting iteration
(`src/unnamed/part_000`) always returns a success acknowledgment, while the
persisting iteration (`src/server.js`) returns a success acknowledgment
exactly when the save succeeds and a 500 error envelope when it fails. -/
theorem contact_ack_after_validation (b0 : PartZero.ContactBody)
    (b : ServerJs.ContactBody)
    (h0n : falsyStr b0.name = false) (h0e : falsyStr b0.email = false)
    (h0m : falsyStr b0.message = false)
    (hf : falsyStr b.firstName = false) (hl : falsyStr b.lastName = false)
    (he : falsyStr b.email = false) (hm : falsyStr b.message = false) :
    PartZero.contactHandler b0 = ⟨200, true⟩
    ∧ ServerJs.contactHandler b (Except.ok ()) = ⟨200, true⟩
    ∧ ∀ e : String, ServerJs.contactHandler b (Except.error e) = ⟨500, false⟩ := by
  refine ⟨?_, ?_, ?_⟩
  · simp [PartZero.contactHandler, h0n, h0e, h0m]
  · simp [ServerJs.contactHandler, hf, hl, he, hm]
  · intro e
    simp [ServerJs.contactHandler, hf, hl, he, hm]

/-- Witness for the amended C8 at concrete validated bodies. -/
theorem contact_ack_after_validation_witness :
    PartZero.contactHandler ⟨some "Jane", some "jane@example.com", some "Hi", none⟩
        = ⟨200, true⟩
    ∧ ServerJs.contactHandler
        ⟨some "Jane", some "Doe", some "jane@example.com", none, none, some "Hi"⟩
        (Except.ok ()) = ⟨200, true⟩
    ∧ ∀ e : String, ServerJs.contactHandler
        ⟨some "Jane", some "Doe", some "jane@example.com", none, none, some "Hi"⟩
        (Except.error e) = ⟨500, false⟩ :=
  contact_ack_after_validation
    ⟨some "Jane", some "jane@example.com", some "Hi", none⟩
    ⟨some "Jane", some "Doe", some "jane@example.com", none, none, some "Hi"⟩
    rfl rfl rfl rfl rfl rfl rfl

/-- C9: a `POST /api/orders` body that itself supplies a non-empty
`orderNumber` is persisted unchanged — the `pre('save')` generator only
runs when `orderNumber` is falsy, so the client-supplied identifier
survives as-is. -/
theorem client_supplied_orderNumber_preserved (now : Nat)
    (orders : List ServerJs.Order) (body : ServerJs.Order) (s : String)
    (hs : body.orderNumber = some s) (hne : s ≠ "")
    (hv : ServerJs.validateOrder body = true) :
    (ServerJs.createOrder now orders body).1.success = true
    ∧ (ServerJs.createOrder now orders body).2 = orders ++ [body] := by
  have hfalsy : falsyStr body.orderNumber = false := by
    rw [hs]
    simpa [falsyStr] using hne
  have hp : ServerJs.preSave now orders.length body = body := by
    simp [ServerJs.preSave, hfalsy]
  rw [ServerJs.createOrder, hp]
  simp [hv]

/-- Witness for C9 at a concrete body carrying its own order number. -/
theorem client_supplied_orderNumber_preserved_witness :
    (ServerJs.createOrder 7 [] wOrderCustom).1.success = true
    ∧ (ServerJs.createOrder 7 [] wOrderCustom).2 = [] ++ [wOrderCustom] :=
  client_supplied_orderNumber_preserved 7 [] wOrderCustom "CUSTOM1" rfl
    (by decide) (by rfl)

end StoreBackend
